import Mathlib

/-!
Shallow embedding of the fastboat-booking data model (src/app/models.py).

The repository is a declarative schema layer: SQLModel table entities and
non-persistent request/response shapes.  Entities and shapes are embedded
as Lean structures whose fields mirror the Python fields one for one
(Python Optional becomes Option, str becomes String, int becomes Int,
Decimal becomes an exact scaled-integer representation, enums become
inductives).  Declared validation constraints (unique, max_length,
min_length, ge, max_digits/decimal_places) are embedded as decidable
predicates and as per-field declaration records.
-/

namespace Fastbook

/-- Calendar date (Python datetime.date): year, month, day. -/
structure Date where
  year : Nat
  month : Nat
  day : Nat
deriving DecidableEq

/-- Time of day (Python datetime.time). -/
structure Time where
  hour : Nat
  minute : Nat
  second : Nat
deriving DecidableEq

/-- Timestamp (Python datetime.datetime): a date with a time of day. -/
structure DateTime where
  date : Date
  time : Time
deriving DecidableEq

/-- Exact decimal number (Python decimal.Decimal): mantissa scaled by
10 to the minus scale, so the value is mantissa / 10 ^ scale. -/
structure Decimal where
  mantissa : Int
  scale : Nat
deriving DecidableEq

/-- A JSON-like value, for the Python Dict[str, Any] / JSON columns. -/
inductive Json where
  | null : Json
  | bool (b : Bool) : Json
  | num (n : Int) : Json
  | str (s : String) : Json
  | arr (xs : List Json) : Json
  | obj (fields : List (String × Json)) : Json

/-- Declared SQL decimal precision: max_digits and decimal_places, as
written in a Field(max_digits=..., decimal_places=...) declaration. -/
structure DecimalSpec where
  max_digits : Nat
  decimal_places : Nat
deriving DecidableEq

/-- A Decimal value fits a declared precision when its scale does not
exceed the declared decimal_places and, once rescaled to the declared
number of decimal places, it has at most max_digits digits in total. -/
def DecimalSpec.fits (spec : DecimalSpec) (x : Decimal) : Prop :=
  x.scale ≤ spec.decimal_places ∧
  x.mantissa.natAbs * 10 ^ (spec.decimal_places - x.scale) < 10 ^ spec.max_digits

/-- An optional Decimal fits a declared precision when absent or fitting. -/
def DecimalSpec.fitsOpt (spec : DecimalSpec) : Option Decimal → Prop
  | none => True
  | some x => spec.fits x

/-- Length bound on an optional string: absent values pass. -/
def optLen : Option String → Nat → Prop
  | none, _ => True
  | some s, n => s.length ≤ n

-- Enums for status fields (models.py lines 9-32)

/-- UserRole enum: customer, admin. -/
inductive UserRole where
  | customer | admin
deriving DecidableEq

/-- BookingStatus enum: pending, confirmed, cancelled, completed. -/
inductive BookingStatus where
  | pending | confirmed | cancelled | completed
deriving DecidableEq

/-- PaymentStatus enum: pending, processing, completed, failed, refunded. -/
inductive PaymentStatus where
  | pending | processing | completed | failed | refunded
deriving DecidableEq

/-- ScheduleStatus enum: active, suspended, cancelled. -/
inductive ScheduleStatus where
  | active | suspended | cancelled
deriving DecidableEq

-- Persistent entities (table=True models)

/-- Language entity (models.py lines 36-47): code is unique. -/
structure Language where
  id : Option Int
  code : String
  name : String
  native_name : String
  is_active : Bool
  is_default : Bool
  created_at : DateTime

/-- User entity (models.py lines 64-79): email is unique; the persisted
password form is password_hash. -/
structure User where
  id : Option Int
  email : String
  password_hash : String
  first_name : String
  last_name : String
  phone : Option String
  role : UserRole
  preferred_language : String
  is_active : Bool
  created_at : DateTime
  updated_at : DateTime

/-- Location entity (models.py lines 83-93): code is unique. -/
structure Location where
  id : Option Int
  code : String
  name : String
  city : String
  country : String
  timezone : String
  is_active : Bool
  created_at : DateTime

/-- Route entity (models.py lines 103-112): ordered pair of location ids
with optional distance; no constraint relates the two endpoints. -/
structure Route where
  id : Option Int
  departure_location_id : Int
  arrival_location_id : Int
  distance_km : Option Decimal
  estimated_duration_minutes : Int
  is_active : Bool
  created_at : DateTime

/-- Schedule entity (models.py lines 140-155): recurring service with
operating weekdays (0=Monday), validity window and lifecycle status. -/
structure Schedule where
  id : Option Int
  route_id : Int
  fastboat_id : Int
  departure_time : Time
  arrival_time : Time
  base_price : Decimal
  currency : String
  days_of_week : List Int
  effective_from : Date
  effective_until : Option Date
  status : ScheduleStatus
  created_at : DateTime
  updated_at : DateTime

/-- DailySchedule entity (models.py lines 162-174): one calendar
occurrence of a Schedule, the bookable inventory unit. -/
structure DailySchedule where
  id : Option Int
  schedule_id : Int
  travel_date : Date
  available_seats : Int
  price_override : Option Decimal
  is_available : Bool
  booking_deadline : Option DateTime
  notes : String
  created_at : DateTime
  updated_at : DateTime
deriving DecidableEq

/-- SeasonalPrice entity (models.py lines 181-191). -/
structure SeasonalPrice where
  id : Option Int
  route_id : Int
  season_name : String
  start_date : Date
  end_date : Date
  price_multiplier : Decimal
  is_active : Bool
  created_at : DateTime

/-- Booking entity (models.py lines 197-215): booking_reference is unique. -/
structure Booking where
  id : Option Int
  booking_reference : String
  user_id : Int
  daily_schedule_id : Int
  passenger_count : Int
  total_amount : Decimal
  currency : String
  status : BookingStatus
  contact_email : String
  contact_phone : String
  special_requests : String
  booking_deadline : DateTime
  booked_at : DateTime
  confirmed_at : Option DateTime
  cancelled_at : Option DateTime
  cancellation_reason : String

/-- Payment entity (models.py lines 241-260): payment_reference is unique. -/
structure Payment where
  id : Option Int
  booking_id : Int
  payment_reference : String
  amount : Decimal
  currency : String
  payment_method : String
  gateway_provider : String
  gateway_transaction_id : Option String
  status : PaymentStatus
  gateway_response : List (String × Json)
  processed_at : Option DateTime
  failed_at : Option DateTime
  failure_reason : String
  refunded_at : Option DateTime
  refund_amount : Option Decimal
  created_at : DateTime
  updated_at : DateTime

/-- SystemSettings entity (models.py lines 279-289): key is unique. -/
structure SystemSettings where
  id : Option Int
  key : String
  value : String
  data_type : String
  description : String
  is_public : Bool
  created_at : DateTime
  updated_at : DateTime

-- Non-persistent schemas for API and forms (table=False models)

/-- UserCreate shape (models.py lines 293-299): carries a plaintext
password with min_length=6. -/
structure UserCreate where
  email : String
  password : String
  first_name : String
  last_name : String
  phone : Option String
  preferred_language : String

/-- UserLogin shape (models.py lines 302-304): carries a plaintext
password with no declared constraint. -/
structure UserLogin where
  email : String
  password : String

/-- RouteSearch shape (models.py lines 307-311). -/
structure RouteSearch where
  departure_location_id : Int
  arrival_location_id : Int
  travel_date : Date
  passenger_count : Int

/-- BookingCreate shape (models.py lines 314-320): passengers is a free
list of detail records. -/
structure BookingCreate where
  daily_schedule_id : Int
  passenger_count : Int
  contact_email : String
  contact_phone : String
  special_requests : String
  passengers : List (List (String × Json))

/-- ScheduleCreate shape (models.py lines 330-339). -/
structure ScheduleCreate where
  route_id : Int
  fastboat_id : Int
  departure_time : Time
  arrival_time : Time
  base_price : Decimal
  currency : String
  days_of_week : List Int
  effective_from : Date
  effective_until : Option Date

/-- DailyScheduleUpdate shape (models.py lines 342-347): every field
optional; an absent field means the target field is left unchanged. -/
structure DailyScheduleUpdate where
  available_seats : Option Int
  price_override : Option Decimal
  is_available : Option Bool
  booking_deadline : Option DateTime
  notes : Option String
deriving DecidableEq

-- Declared decimal precisions, transcribed from the Field declarations

/-- Declared precision of Route.distance_km (models.py line 109). -/
def Route.distance_km_decl : DecimalSpec := ⟨8, 2⟩

/-- Declared precision of Schedule.base_price (models.py line 148). -/
def Schedule.base_price_decl : DecimalSpec := ⟨10, 2⟩

/-- Declared precision of DailySchedule.price_override (models.py line 169). -/
def DailySchedule.price_override_decl : DecimalSpec := ⟨10, 2⟩

/-- Declared precision of SeasonalPrice.price_multiplier (models.py line 189). -/
def SeasonalPrice.price_multiplier_decl : DecimalSpec := ⟨5, 3⟩

/-- Declared precision of Booking.total_amount (models.py line 205). -/
def Booking.total_amount_decl : DecimalSpec := ⟨10, 2⟩

/-- Declared precision of Payment.amount (models.py line 247). -/
def Payment.amount_decl : DecimalSpec := ⟨10, 2⟩

/-- Declared precision of Payment.refund_amount (models.py line 258). -/
def Payment.refund_amount_decl : DecimalSpec := ⟨10, 2⟩

/-- Declared precision of ScheduleCreate.base_price (models.py line 335). -/
def ScheduleCreate.base_price_decl : DecimalSpec := ⟨10, 2⟩

/-- Declared precision of DailyScheduleUpdate.price_override
(models.py line 344). -/
def DailyScheduleUpdate.price_override_decl : DecimalSpec := ⟨10, 2⟩

/-- The monetary amount fields of the model, with their declared
precisions, in source order. -/
def amountFieldDecls : List DecimalSpec :=
  [Schedule.base_price_decl, DailySchedule.price_override_decl,
   Booking.total_amount_decl, Payment.amount_decl, Payment.refund_amount_decl,
   ScheduleCreate.base_price_decl, DailyScheduleUpdate.price_override_decl]

-- Validation predicates from the declared field constraints

/-- RouteSearch validation: the only declared constraint is
passenger_count ge=1 (models.py line 311). -/
def RouteSearch.valid (r : RouteSearch) : Prop :=
  1 ≤ r.passenger_count

/-- BookingCreate string length constraints (models.py lines 317-319). -/
def BookingCreate.lenOk (b : BookingCreate) : Prop :=
  b.contact_email.length ≤ 255 ∧ b.contact_phone.length ≤ 20 ∧
  b.special_requests.length ≤ 1000

/-- BookingCreate validation: the length constraints and
passenger_count ge=1 (models.py line 316); no declared constraint
relates passengers to passenger_count. -/
def BookingCreate.valid (b : BookingCreate) : Prop :=
  b.lenOk ∧ 1 ≤ b.passenger_count

/-- UserCreate validation: declared max_length constraints and
password min_length=6 (models.py lines 294-299). -/
def UserCreate.valid (u : UserCreate) : Prop :=
  u.email.length ≤ 255 ∧ 6 ≤ u.password.length ∧
  u.first_name.length ≤ 100 ∧ u.last_name.length ≤ 100 ∧
  optLen u.phone 20 ∧ u.preferred_language.length ≤ 5

/-- UserLogin validation: only email max_length=255 is declared
(models.py lines 302-304); password carries no constraint. -/
def UserLogin.valid (l : UserLogin) : Prop :=
  l.email.length ≤ 255

/-- Route validation: the only declared value constraint is the decimal
precision of distance_km (models.py line 109); nothing constrains the
pair of location ids. -/
def Route.valid (r : Route) : Prop :=
  Route.distance_km_decl.fitsOpt r.distance_km

/-- Schedule declared value constraints: base_price precision and
currency max_length=3 (models.py lines 148-149); no constraint on the
elements of days_of_week. -/
def Schedule.valid (s : Schedule) : Prop :=
  Schedule.base_price_decl.fits s.base_price ∧ s.currency.length ≤ 3

/-- ScheduleCreate validation: base_price precision and currency
max_length=3 (models.py lines 335-336); no constraint on the elements
of days_of_week. -/
def ScheduleCreate.valid (sc : ScheduleCreate) : Prop :=
  ScheduleCreate.base_price_decl.fits sc.base_price ∧ sc.currency.length ≤ 3

/-- Instantiating a Schedule with only the required fields supplied:
every defaulted field takes its declared default (models.py lines
143-155); created_at and updated_at come from the utcnow factory. -/
def Schedule.new (now : DateTime) (route_id fastboat_id : Int)
    (departure_time arrival_time : Time) (base_price : Decimal)
    (effective_from : Date) : Schedule :=
  { id := none
    route_id := route_id
    fastboat_id := fastboat_id
    departure_time := departure_time
    arrival_time := arrival_time
    base_price := base_price
    currency := "USD"
    days_of_week := []
    effective_from := effective_from
    effective_until := none
    status := ScheduleStatus.active
    created_at := now
    updated_at := now }

-- Field-name declarations of every model class, for shape-level claims

/-- A model class declaration: its name, whether it is persisted
(table=True), and its field names in source order. -/
structure ModelDecl where
  name : String
  table : Bool
  fields : List String
deriving DecidableEq

/-- Field lists of every class in models.py, transcribed in source
order (relationship attributes are not columns and are omitted). -/
def allModels : List ModelDecl :=
  [⟨"Language", true, ["id", "code", "name", "native_name", "is_active",
      "is_default", "created_at"]⟩,
   ⟨"Translation", true, ["id", "key", "value", "language_id",
      "created_at", "updated_at"]⟩,
   ⟨"User", true, ["id", "email", "password_hash", "first_name",
      "last_name", "phone", "role", "preferred_language", "is_active",
      "created_at", "updated_at"]⟩,
   ⟨"Location", true, ["id", "code", "name", "city", "country",
      "timezone", "is_active", "created_at"]⟩,
   ⟨"Route", true, ["id", "departure_location_id", "arrival_location_id",
      "distance_km", "estimated_duration_minutes", "is_active",
      "created_at"]⟩,
   ⟨"Fastboat", true, ["id", "name", "operator", "capacity", "boat_type",
      "facilities", "is_active", "created_at"]⟩,
   ⟨"Schedule", true, ["id", "route_id", "fastboat_id", "departure_time",
      "arrival_time", "base_price", "currency", "days_of_week",
      "effective_from", "effective_until", "status", "created_at",
      "updated_at"]⟩,
   ⟨"DailySchedule", true, ["id", "schedule_id", "travel_date",
      "available_seats", "price_override", "is_available",
      "booking_deadline", "notes", "created_at", "updated_at"]⟩,
   ⟨"SeasonalPrice", true, ["id", "route_id", "season_name", "start_date",
      "end_date", "price_multiplier", "is_active", "created_at"]⟩,
   ⟨"Booking", true, ["id", "booking_reference", "user_id",
      "daily_schedule_id", "passenger_count", "total_amount", "currency",
      "status", "contact_email", "contact_phone", "special_requests",
      "booking_deadline", "booked_at", "confirmed_at", "cancelled_at",
      "cancellation_reason"]⟩,
   ⟨"Passenger", true, ["id", "booking_id", "first_name", "last_name",
      "date_of_birth", "nationality", "passport_number", "id_number",
      "special_needs", "created_at"]⟩,
   ⟨"Payment", true, ["id", "booking_id", "payment_reference", "amount",
      "currency", "payment_method", "gateway_provider",
      "gateway_transaction_id", "status", "gateway_response",
      "processed_at", "failed_at", "failure_reason", "refunded_at",
      "refund_amount", "created_at", "updated_at"]⟩,
   ⟨"AdminAction", true, ["id", "admin_user_id", "action_type",
      "resource_type", "resource_id", "description", "action_metadata",
      "created_at"]⟩,
   ⟨"SystemSettings", true, ["id", "key", "value", "data_type",
      "description", "is_public", "created_at", "updated_at"]⟩,
   ⟨"UserCreate", false, ["email", "password", "first_name", "last_name",
      "phone", "preferred_language"]⟩,
   ⟨"UserLogin", false, ["email", "password"]⟩,
   ⟨"RouteSearch", false, ["departure_location_id", "arrival_location_id",
      "travel_date", "passenger_count"]⟩,
   ⟨"BookingCreate", false, ["daily_schedule_id", "passenger_count",
      "contact_email", "contact_phone", "special_requests",
      "passengers"]⟩,
   ⟨"PaymentCreate", false, ["booking_id", "payment_method",
      "gateway_provider", "return_url"]⟩,
   ⟨"ScheduleCreate", false, ["route_id", "fastboat_id",
      "departure_time", "arrival_time", "base_price", "currency",
      "days_of_week", "effective_from", "effective_until"]⟩,
   ⟨"DailyScheduleUpdate", false, ["available_seats", "price_override",
      "is_available", "booking_deadline", "notes"]⟩,
   ⟨"SalesReportFilters", false, ["start_date", "end_date", "route_id",
      "fastboat_id", "status"]⟩]

-- Uniqueness enforcement on insert

/-- Modelled from the spec: duplicate rejection for a unique=True column.
The database enforcement layer is not in the source; per the spec,
"uniqueness constraints ... reject duplicate insert attempts", so an
insert is rejected (none) when the key of the new row already occurs
among the stored rows, and otherwise stores the row. -/
def insertUnique {α : Type} (key : α → String) (xs : List α) (x : α) :
    Option (List α) :=
  if key x ∈ xs.map key then none else some (x :: xs)

/-- The persistent store: one table per entity carrying a unique column. -/
structure Store where
  users : List User
  bookings : List Booking
  payments : List Payment
  locations : List Location
  languages : List Language
  settings : List SystemSettings

/-- The empty store. -/
def Store.empty : Store := ⟨[], [], [], [], [], []⟩

/-- Insert a User, rejecting a duplicate email (models.py line 68). -/
def Store.insertUser (s : Store) (u : User) : Option Store :=
  match insertUnique User.email s.users u with
  | none => none
  | some xs => some { s with users := xs }

/-- Insert a Booking, rejecting a duplicate booking_reference
(models.py line 201). -/
def Store.insertBooking (s : Store) (b : Booking) : Option Store :=
  match insertUnique Booking.booking_reference s.bookings b with
  | none => none
  | some xs => some { s with bookings := xs }

/-- Insert a Payment, rejecting a duplicate payment_reference
(models.py line 246). -/
def Store.insertPayment (s : Store) (p : Payment) : Option Store :=
  match insertUnique Payment.payment_reference s.payments p with
  | none => none
  | some xs => some { s with payments := xs }

/-- Insert a Location, rejecting a duplicate code (models.py line 87). -/
def Store.insertLocation (s : Store) (l : Location) : Option Store :=
  match insertUnique Location.code s.locations l with
  | none => none
  | some xs => some { s with locations := xs }

/-- Insert a Language, rejecting a duplicate code (models.py line 40). -/
def Store.insertLanguage (s : Store) (l : Language) : Option Store :=
  match insertUnique Language.code s.languages l with
  | none => none
  | some xs => some { s with languages := xs }

/-- Insert a SystemSettings row, rejecting a duplicate key
(models.py line 283). -/
def Store.insertSetting (s : Store) (x : SystemSettings) : Option Store :=
  match insertUnique SystemSettings.key s.settings x with
  | none => none
  | some xs => some { s with settings := xs }

/-- A store state reachable from the empty store by successful inserts. -/
inductive Reachable : Store → Prop
  | empty : Reachable Store.empty
  | user (s : Store) (u : User) (s' : Store) :
      Reachable s → s.insertUser u = some s' → Reachable s'
  | booking (s : Store) (b : Booking) (s' : Store) :
      Reachable s → s.insertBooking b = some s' → Reachable s'
  | payment (s : Store) (p : Payment) (s' : Store) :
      Reachable s → s.insertPayment p = some s' → Reachable s'
  | location (s : Store) (l : Location) (s' : Store) :
      Reachable s → s.insertLocation l = some s' → Reachable s'
  | language (s : Store) (l : Language) (s' : Store) :
      Reachable s → s.insertLanguage l = some s' → Reachable s'
  | setting (s : Store) (x : SystemSettings) (s' : Store) :
      Reachable s → s.insertSetting x = some s' → Reachable s'

/-- All six declared uniqueness constraints hold in a store state: no
two rows of the same table share a value of the constrained column. -/
def Store.uniqueOk (s : Store) : Prop :=
  (s.users.map User.email).Nodup ∧
  (s.bookings.map Booking.booking_reference).Nodup ∧
  (s.payments.map Payment.payment_reference).Nodup ∧
  (s.locations.map Location.code).Nodup ∧
  (s.languages.map Language.code).Nodup ∧
  (s.settings.map SystemSettings.key).Nodup

-- Date arithmetic and the schedule-active query

/-- Days elapsed since 0000-03-01 in the proleptic Gregorian calendar
(valid for year at least 1), via the standard civil-from-days inverse. -/
def Date.civilDays (d : Date) : Nat :=
  let y := if d.month ≤ 2 then d.year - 1 else d.year
  let era := y / 400
  let yoe := y - era * 400
  let mp := if 2 < d.month then d.month - 3 else d.month + 9
  let doy := (153 * mp + 2) / 5 + d.day - 1
  let doe := yoe * 365 + yoe / 4 - yoe / 100 + doy
  era * 146097 + doe

/-- Weekday of a date with 0 = Monday .. 6 = Sunday, the convention of
Schedule.days_of_week (models.py line 150) and of Python
date.weekday(). -/
def Date.weekday (d : Date) : Nat :=
  (d.civilDays + 2) % 7

/-- Date comparison by position in the calendar. -/
def Date.le (a b : Date) : Prop :=
  a.civilDays ≤ b.civilDays

instance (a b : Date) : Decidable (Date.le a b) := by
  unfold Date.le; infer_instance

/-- Modelled from the spec: the query "is this schedule active on a
date", absent from the source, which only declares the Schedule fields.
Per the spec, a schedule is active on a date when its status is active,
the weekday of the date (0=Monday) is among days_of_week, the date is
not before effective_from, and not after effective_until when
effective_until is present (open-ended when absent). -/
def Schedule.isActiveOn (s : Schedule) (d : Date) : Bool :=
  decide (s.status = ScheduleStatus.active) &&
  decide ((Int.ofNat d.weekday) ∈ s.days_of_week) &&
  decide (Date.le s.effective_from d) &&
  (match s.effective_until with
   | none => true
   | some u => decide (Date.le d u))

-- Patch application for DailyScheduleUpdate

/-- Modelled from the spec: applying a DailyScheduleUpdate to a
DailySchedule record, absent from the source, which only declares the
shape. Per the spec, every field is optional and absence means "leave
unchanged" (patch semantics); a present field replaces the target
field. -/
def DailySchedule.applyUpdate (d : DailySchedule) (u : DailyScheduleUpdate) :
    DailySchedule :=
  { d with
    available_seats := u.available_seats.getD d.available_seats
    price_override :=
      match u.price_override with
      | none => d.price_override
      | some v => some v
    is_available := u.is_available.getD d.is_available
    booking_deadline :=
      match u.booking_deadline with
      | none => d.booking_deadline
      | some v => some v
    notes := u.notes.getD d.notes }

/-- The all-absent DailyScheduleUpdate. -/
def DailyScheduleUpdate.empty : DailyScheduleUpdate :=
  ⟨none, none, none, none, none⟩

-- Decidability of the constraint predicates

instance (spec : DecimalSpec) (x : Decimal) : Decidable (spec.fits x) :=
  inferInstanceAs (Decidable (x.scale ≤ spec.decimal_places ∧
    x.mantissa.natAbs * 10 ^ (spec.decimal_places - x.scale) < 10 ^ spec.max_digits))

instance (spec : DecimalSpec) : (o : Option Decimal) → Decidable (spec.fitsOpt o)
  | none => isTrue trivial
  | some x => inferInstanceAs (Decidable (spec.fits x))

instance : (o : Option String) → (n : Nat) → Decidable (optLen o n)
  | none, _ => isTrue trivial
  | some s, n => inferInstanceAs (Decidable (s.length ≤ n))

-- Sample records for concrete evaluations

/-- A fixed timestamp for sample records. -/
def dt0 : DateTime := ⟨⟨2024, 1, 1⟩, ⟨0, 0, 0⟩⟩

/-- A sample user. -/
def sampleUser : User :=
  { id := none, email := "alice@example.com", password_hash := "h1",
    first_name := "Alice", last_name := "Anders", phone := none,
    role := UserRole.customer, preferred_language := "en",
    is_active := true, created_at := dt0, updated_at := dt0 }

/-- A second user sharing sampleUser's email. -/
def sampleUser2 : User := { sampleUser with first_name := "Bob" }

/-- The store holding exactly sampleUser. -/
def storeOne : Store := { Store.empty with users := [sampleUser] }

/-- A sample schedule: operating Monday, Wednesday, Friday from
2024-01-01, open-ended, active. -/
def sampleSchedule : Schedule :=
  { id := none, route_id := 1, fastboat_id := 1,
    departure_time := ⟨9, 0, 0⟩, arrival_time := ⟨10, 30, 0⟩,
    base_price := ⟨5000, 2⟩, currency := "USD",
    days_of_week := [0, 2, 4], effective_from := ⟨2024, 1, 1⟩,
    effective_until := none, status := ScheduleStatus.active,
    created_at := dt0, updated_at := dt0 }

/-- A sample daily schedule record. -/
def sampleDaily : DailySchedule :=
  { id := none, schedule_id := 1, travel_date := ⟨2024, 6, 10⟩,
    available_seats := 40, price_override := none, is_available := true,
    booking_deadline := none, notes := "", created_at := dt0,
    updated_at := dt0 }

/-- A sample route search for two passengers. -/
def sampleSearch : RouteSearch := ⟨1, 2, ⟨2024, 6, 10⟩, 2⟩

/-- A booking request with passenger_count zero. -/
def sampleBadBooking : BookingCreate := ⟨1, 0, "a@b.c", "123", "", []⟩

/-- A registration input with a six-character-plus password. -/
def sampleCreate : UserCreate :=
  ⟨"alice@example.com", "secret99", "Alice", "Anders", none, "en"⟩

/-- A registration input with a three-character password. -/
def sampleShortCreate : UserCreate :=
  ⟨"bob@example.com", "abc", "Bob", "Brown", none, "en"⟩

/-- A login input with an empty password. -/
def sampleLogin : UserLogin := ⟨"alice@example.com", ""⟩

-- Helper lemmas on unique insertion

/-- A successful unique insert prepends the row. -/
theorem insertUnique_some {α : Type} (key : α → String) {xs ys : List α}
    {x : α} (h : insertUnique key xs x = some ys) :
    key x ∉ xs.map key ∧ ys = x :: xs := by
  unfold insertUnique at h
  split at h
  · cases h
  · rename_i hmem
    injection h with h
    exact ⟨hmem, h.symm⟩

/-- A unique insert with a duplicate key is rejected. -/
theorem insertUnique_dup {α : Type} (key : α → String) {xs : List α}
    {x : α} (h : key x ∈ xs.map key) : insertUnique key xs x = none := by
  unfold insertUnique
  simp [h]

/-- A successful unique insert preserves distinctness of the keys. -/
theorem insertUnique_nodup {α : Type} (key : α → String) {xs ys : List α}
    {x : α} (h : insertUnique key xs x = some ys)
    (hnd : (xs.map key).Nodup) : (ys.map key).Nodup := by
  obtain ⟨hmem, rfl⟩ := insertUnique_some key h
  simp only [List.map_cons]
  exact List.nodup_cons.mpr ⟨hmem, hnd⟩

/-- Inversion of a successful user insert. -/
theorem insertUser_some {s : Store} {u : User} {s' : Store}
    (h : s.insertUser u = some s') :
    ∃ xs, insertUnique User.email s.users u = some xs ∧
      s' = { s with users := xs } := by
  unfold Store.insertUser at h
  cases hins : insertUnique User.email s.users u with
  | none => rw [hins] at h; cases h
  | some xs => rw [hins] at h; injection h with h; exact ⟨xs, rfl, h.symm⟩

/-- Inversion of a successful booking insert. -/
theorem insertBooking_some {s : Store} {b : Booking} {s' : Store}
    (h : s.insertBooking b = some s') :
    ∃ xs, insertUnique Booking.booking_reference s.bookings b = some xs ∧
      s' = { s with bookings := xs } := by
  unfold Store.insertBooking at h
  cases hins : insertUnique Booking.booking_reference s.bookings b with
  | none => rw [hins] at h; cases h
  | some xs => rw [hins] at h; injection h with h; exact ⟨xs, rfl, h.symm⟩

/-- Inversion of a successful payment insert. -/
theorem insertPayment_some {s : Store} {p : Payment} {s' : Store}
    (h : s.insertPayment p = some s') :
    ∃ xs, insertUnique Payment.payment_reference s.payments p = some xs ∧
      s' = { s with payments := xs } := by
  unfold Store.insertPayment at h
  cases hins : insertUnique Payment.payment_reference s.payments p with
  | none => rw [hins] at h; cases h
  | some xs => rw [hins] at h; injection h with h; exact ⟨xs, rfl, h.symm⟩

/-- Inversion of a successful location insert. -/
theorem insertLocation_some {s : Store} {l : Location} {s' : Store}
    (h : s.insertLocation l = some s') :
    ∃ xs, insertUnique Location.code s.locations l = some xs ∧
      s' = { s with locations := xs } := by
  unfold Store.insertLocation at h
  cases hins : insertUnique Location.code s.locations l with
  | none => rw [hins] at h; cases h
  | some xs => rw [hins] at h; injection h with h; exact ⟨xs, rfl, h.symm⟩

/-- Inversion of a successful language insert. -/
theorem insertLanguage_some {s : Store} {l : Language} {s' : Store}
    (h : s.insertLanguage l = some s') :
    ∃ xs, insertUnique Language.code s.languages l = some xs ∧
      s' = { s with languages := xs } := by
  unfold Store.insertLanguage at h
  cases hins : insertUnique Language.code s.languages l with
  | none => rw [hins] at h; cases h
  | some xs => rw [hins] at h; injection h with h; exact ⟨xs, rfl, h.symm⟩

/-- Inversion of a successful settings insert. -/
theorem insertSetting_some {s : Store} {x : SystemSettings} {s' : Store}
    (h : s.insertSetting x = some s') :
    ∃ xs, insertUnique SystemSettings.key s.settings x = some xs ∧
      s' = { s with settings := xs } := by
  unfold Store.insertSetting at h
  cases hins : insertUnique SystemSettings.key s.settings x with
  | none => rw [hins] at h; cases h
  | some xs => rw [hins] at h; injection h with h; exact ⟨xs, rfl, h.symm⟩

/-- Every reachable store state satisfies all six uniqueness
constraints. -/
theorem reachable_uniqueOk {s : Store} (h : Reachable s) :
    Store.uniqueOk s := by
  induction h with
  | empty =>
      exact ⟨List.nodup_nil, List.nodup_nil, List.nodup_nil,
        List.nodup_nil, List.nodup_nil, List.nodup_nil⟩
  | user s u s' hr heq ih =>
      obtain ⟨xs, hins, rfl⟩ := insertUser_some heq
      obtain ⟨h1, h2, h3, h4, h5, h6⟩ := ih
      exact ⟨insertUnique_nodup User.email hins h1, h2, h3, h4, h5, h6⟩
  | booking s b s' hr heq ih =>
      obtain ⟨xs, hins, rfl⟩ := insertBooking_some heq
      obtain ⟨h1, h2, h3, h4, h5, h6⟩ := ih
      exact ⟨h1, insertUnique_nodup Booking.booking_reference hins h2,
        h3, h4, h5, h6⟩
  | payment s p s' hr heq ih =>
      obtain ⟨xs, hins, rfl⟩ := insertPayment_some heq
      obtain ⟨h1, h2, h3, h4, h5, h6⟩ := ih
      exact ⟨h1, h2, insertUnique_nodup Payment.payment_reference hins h3,
        h4, h5, h6⟩
  | location s l s' hr heq ih =>
      obtain ⟨xs, hins, rfl⟩ := insertLocation_some heq
      obtain ⟨h1, h2, h3, h4, h5, h6⟩ := ih
      exact ⟨h1, h2, h3, insertUnique_nodup Location.code hins h4, h5, h6⟩
  | language s l s' hr heq ih =>
      obtain ⟨xs, hins, rfl⟩ := insertLanguage_some heq
      obtain ⟨h1, h2, h3, h4, h5, h6⟩ := ih
      exact ⟨h1, h2, h3, h4, insertUnique_nodup Language.code hins h5, h6⟩
  | setting s x s' hr heq ih =>
      obtain ⟨xs, hins, rfl⟩ := insertSetting_some heq
      obtain ⟨h1, h2, h3, h4, h5, h6⟩ := ih
      exact ⟨h1, h2, h3, h4, h5,
        insertUnique_nodup SystemSettings.key hins h6⟩

-- Claim theorems

/-- C1: for every entity carrying a uniqueness constraint (User.email,
Booking.booking_reference, Payment.payment_reference, Location.code,
Language.code, SystemSettings.key), inserting a second record whose
constrained field equals that of an existing record is rejected, so in
every reachable store state no two rows of the same entity share a
value of that field. -/
theorem uniqueness_invariant (s : Store) (h : Reachable s) :
    Store.uniqueOk s ∧
    (∀ u : User, u.email ∈ s.users.map User.email →
      s.insertUser u = none) ∧
    (∀ b : Booking,
      b.booking_reference ∈ s.bookings.map Booking.booking_reference →
      s.insertBooking b = none) ∧
    (∀ p : Payment,
      p.payment_reference ∈ s.payments.map Payment.payment_reference →
      s.insertPayment p = none) ∧
    (∀ l : Location, l.code ∈ s.locations.map Location.code →
      s.insertLocation l = none) ∧
    (∀ l : Language, l.code ∈ s.languages.map Language.code →
      s.insertLanguage l = none) ∧
    (∀ x : SystemSettings, x.key ∈ s.settings.map SystemSettings.key →
      s.insertSetting x = none) := by
  refine ⟨reachable_uniqueOk h, ?_, ?_, ?_, ?_, ?_, ?_⟩
  · intro u hu
    unfold Store.insertUser
    rw [insertUnique_dup User.email hu]
  · intro b hb
    unfold Store.insertBooking
    rw [insertUnique_dup Booking.booking_reference hb]
  · intro p hp
    unfold Store.insertPayment
    rw [insertUnique_dup Payment.payment_reference hp]
  · intro l hl
    unfold Store.insertLocation
    rw [insertUnique_dup Location.code hl]
  · intro l hl
    unfold Store.insertLanguage
    rw [insertUnique_dup Language.code hl]
  · intro x hx
    unfold Store.insertSetting
    rw [insertUnique_dup SystemSettings.key hx]

/-- Witness for C1: the store reached by inserting sampleUser into the
empty store satisfies all uniqueness constraints, and inserting a
second user with the same email is rejected. -/
theorem uniqueness_invariant_witness :
    Store.uniqueOk storeOne ∧ storeOne.insertUser sampleUser2 = none := by
  have h := uniqueness_invariant storeOne
    (Reachable.user Store.empty sampleUser storeOne Reachable.empty rfl)
  exact ⟨h.1, h.2.1 sampleUser2 (by decide)⟩

/-- C2: RouteSearch validation rejects exactly the inputs with
passenger_count below one; BookingCreate validation imposes the same
passenger_count check (its only other checks are string length bounds),
so any input with passenger_count below one is rejected. -/
theorem passenger_count_validation :
    (∀ r : RouteSearch, RouteSearch.valid r ↔ 1 ≤ r.passenger_count) ∧
    (∀ b : BookingCreate,
      BookingCreate.valid b ↔ (b.lenOk ∧ 1 ≤ b.passenger_count)) ∧
    (∀ b : BookingCreate, b.passenger_count < 1 →
      ¬ BookingCreate.valid b) := by
  refine ⟨fun r => Iff.rfl, fun b => Iff.rfl, fun b hlt hv => ?_⟩
  exact absurd hv.2 (by omega)

/-- Witness for C2: a search for two passengers passes the check and a
booking request for zero passengers is rejected. -/
theorem passenger_count_validation_witness :
    RouteSearch.valid sampleSearch ∧ ¬ BookingCreate.valid sampleBadBooking := by
  constructor
  · exact (passenger_count_validation.1 sampleSearch).mpr (by decide)
  · exact passenger_count_validation.2.2 sampleBadBooking (by decide)

/-- C3: applying a DailyScheduleUpdate whose five fields are all absent
leaves the DailySchedule record unchanged, and more generally each
absent field of the update leaves the corresponding field of the record
unchanged. -/
theorem daily_schedule_update_frame (d : DailySchedule)
    (u : DailyScheduleUpdate) :
    (d.applyUpdate DailyScheduleUpdate.empty = d) ∧
    (u.available_seats = none →
      (d.applyUpdate u).available_seats = d.available_seats) ∧
    (u.price_override = none →
      (d.applyUpdate u).price_override = d.price_override) ∧
    (u.is_available = none →
      (d.applyUpdate u).is_available = d.is_available) ∧
    (u.booking_deadline = none →
      (d.applyUpdate u).booking_deadline = d.booking_deadline) ∧
    (u.notes = none → (d.applyUpdate u).notes = d.notes) := by
  refine ⟨rfl, ?_, ?_, ?_, ?_, ?_⟩ <;>
    (intro h; simp [DailySchedule.applyUpdate, h])

/-- Witness for C3: the all-absent update is a no-op on sampleDaily and
leaves its available_seats unchanged. -/
theorem daily_schedule_update_frame_witness :
    sampleDaily.applyUpdate DailyScheduleUpdate.empty = sampleDaily ∧
    (sampleDaily.applyUpdate DailyScheduleUpdate.empty).available_seats =
      sampleDaily.available_seats := by
  have h := daily_schedule_update_frame sampleDaily DailyScheduleUpdate.empty
  exact ⟨h.1, h.2.1 rfl⟩

/-- C4: sampleSchedule (days_of_week [0,2,4], effective_from
2024-01-01, effective_until absent, status active) is active on
2024-06-10, and in general a schedule is active on a date exactly when
its status is active, the date's weekday (0=Monday) is among
days_of_week, the date is not before effective_from, and not after
effective_until when that is present (open-ended when absent). -/
theorem schedule_active_rule :
    (sampleSchedule.isActiveOn ⟨2024, 6, 10⟩ = true) ∧
    (∀ (s : Schedule) (d : Date), s.isActiveOn d = true ↔
      (s.status = ScheduleStatus.active ∧
       (Int.ofNat d.weekday) ∈ s.days_of_week ∧
       Date.le s.effective_from d ∧
       ∀ u, s.effective_until = some u → Date.le d u)) := by
  constructor
  · decide
  · intro s d
    unfold Schedule.isActiveOn
    cases h : s.effective_until with
    | none => simp [h, and_assoc]
    | some u => simp [h, and_assoc]

/-- Witness for C4: the activity of sampleSchedule on 2024-06-10
follows from the four conditions at that concrete date. -/
theorem schedule_active_rule_witness :
    Schedule.isActiveOn sampleSchedule ⟨2024, 6, 10⟩ = true :=
  (schedule_active_rule.2 sampleSchedule ⟨2024, 6, 10⟩).mpr
    ⟨rfl, by decide, by decide, fun u hu => by cases hu⟩

/-- C5: every monetary amount field (Schedule.base_price,
DailySchedule.price_override, Booking.total_amount, Payment.amount,
Payment.refund_amount, ScheduleCreate.base_price,
DailyScheduleUpdate.price_override) is declared with 10 total digits
and 2 decimal places, Route.distance_km with 8 and 2, and
SeasonalPrice.price_multiplier with 5 and 3. -/
theorem decimal_precision_decls :
    (∀ spec ∈ amountFieldDecls, spec = ⟨10, 2⟩) ∧
    Route.distance_km_decl = ⟨8, 2⟩ ∧
    SeasonalPrice.price_multiplier_decl = ⟨5, 3⟩ := by
  decide

/-- Witness for C5: the declared precision of Schedule.base_price,
a member of the amount field list, is 10 digits and 2 places. -/
theorem decimal_precision_decls_witness :
    Schedule.base_price_decl = ⟨10, 2⟩ :=
  decimal_precision_decls.1 Schedule.base_price_decl (by decide)

/-- C6: the Route data model does not enforce departure distinct from
arrival: a Route whose departure_location_id equals its
arrival_location_id passes every declared constraint. -/
theorem route_equal_endpoints_accepted :
    ∃ r : Route, r.departure_location_id = r.arrival_location_id ∧
      Route.valid r := by
  refine ⟨{ id := none, departure_location_id := 1,
            arrival_location_id := 1, distance_km := none,
            estimated_duration_minutes := 45, is_active := true,
            created_at := dt0 }, rfl, ?_⟩
  unfold Route.valid
  decide

/-- C7: BookingCreate validation does not require the passengers list
length to equal passenger_count: an input with passenger_count two and
an empty passengers list passes every declared constraint. -/
theorem booking_passenger_mismatch_accepted :
    ∃ b : BookingCreate, BookingCreate.valid b ∧
      1 ≤ b.passenger_count ∧
      (b.passengers.length : Int) ≠ b.passenger_count := by
  refine ⟨⟨1, 2, "a@b.c", "123", "", []⟩, ?_, by decide, by decide⟩
  unfold BookingCreate.valid BookingCreate.lenOk
  decide

/-- C8: a field named password occurs exactly in the non-persistent
UserCreate and UserLogin shapes, no persisted (table=True) model has
one, and the persisted User model carries password_hash instead. -/
theorem plaintext_password_only_in_auth_shapes :
    (∀ m ∈ allModels,
      ("password" ∈ m.fields ↔ (m.name = "UserCreate" ∨ m.name = "UserLogin"))) ∧
    (∀ m ∈ allModels,
      (m.name = "UserCreate" ∨ m.name = "UserLogin") → m.table = false) ∧
    (∀ m ∈ allModels, m.table = true → "password" ∉ m.fields) ∧
    (∃ m ∈ allModels, m.name = "User" ∧ m.table = true ∧
      "password_hash" ∈ m.fields ∧ "password" ∉ m.fields) := by
  decide

/-- Witness for C8: instantiated at the UserLogin declaration, a member
of the model list, the password field is present and the shape is not
persisted. -/
theorem plaintext_password_witness :
    ("password" ∈
        (⟨"UserLogin", false, ["email", "password"]⟩ : ModelDecl).fields ↔
      ((⟨"UserLogin", false, ["email", "password"]⟩ : ModelDecl).name =
          "UserCreate" ∨
        (⟨"UserLogin", false, ["email", "password"]⟩ : ModelDecl).name =
          "UserLogin")) :=
  plaintext_password_only_in_auth_shapes.1
    ⟨"UserLogin", false, ["email", "password"]⟩ (by decide)

/-- C9: UserCreate validation rejects every input whose password has
fewer than six characters and, the other declared length bounds
holding, accepts any input whose password has at least six characters;
UserLogin validation constrains only the email length, so it imposes no
minimum password length. -/
theorem password_min_length :
    (∀ u : UserCreate, UserCreate.valid u → 6 ≤ u.password.length) ∧
    (∀ u : UserCreate, u.password.length < 6 → ¬ UserCreate.valid u) ∧
    (∀ u : UserCreate, u.email.length ≤ 255 → 6 ≤ u.password.length →
      u.first_name.length ≤ 100 → u.last_name.length ≤ 100 →
      optLen u.phone 20 → u.preferred_language.length ≤ 5 →
      UserCreate.valid u) ∧
    (∀ l : UserLogin, UserLogin.valid l ↔ l.email.length ≤ 255) := by
  refine ⟨fun u hv => hv.2.1, fun u hlt hv => absurd hv.2.1 (by omega),
    ?_, fun l => Iff.rfl⟩
  intro u h1 h2 h3 h4 h5 h6
  exact ⟨h1, h2, h3, h4, h5, h6⟩

/-- Witness for C9: sampleCreate (eight-character password) is
accepted, sampleShortCreate (three-character password) is rejected, and
sampleLogin with an empty password is accepted. -/
theorem password_min_length_witness :
    UserCreate.valid sampleCreate ∧
    ¬ UserCreate.valid sampleShortCreate ∧
    UserLogin.valid sampleLogin := by
  refine ⟨?_, ?_, ?_⟩
  · exact password_min_length.2.2.1 sampleCreate (by decide) (by decide)
      (by decide) (by decide) (by decide) (by decide)
  · exact password_min_length.2.1 sampleShortCreate (by decide)
  · exact (password_min_length.2.2.2 sampleLogin).mpr (by decide)

/-- C10: neither Schedule nor ScheduleCreate constrains the elements of
days_of_week to the weekday range 0..6 — inputs containing 7 and -1
pass every declared constraint — and a Schedule instantiated with only
its required fields gets the empty days_of_week list. -/
theorem days_of_week_unvalidated :
    (∃ sc : ScheduleCreate, ScheduleCreate.valid sc ∧
      (7 : Int) ∈ sc.days_of_week ∧ (-1 : Int) ∈ sc.days_of_week) ∧
    (∃ s : Schedule, Schedule.valid s ∧
      (7 : Int) ∈ s.days_of_week ∧ (-1 : Int) ∈ s.days_of_week) ∧
    (∀ (now : DateTime) (rid fid : Int) (t1 t2 : Time) (bp : Decimal)
      (ef : Date),
      (Schedule.new now rid fid t1 t2 bp ef).days_of_week = []) := by
  refine ⟨⟨⟨1, 1, ⟨9, 0, 0⟩, ⟨10, 30, 0⟩, ⟨5000, 2⟩, "USD", [7, -1],
      ⟨2024, 1, 1⟩, none⟩, ?_, by decide, by decide⟩,
    ⟨{ sampleSchedule with days_of_week := [7, -1] }, ?_, by decide,
      by decide⟩, fun _ _ _ _ _ _ _ => rfl⟩
  · unfold ScheduleCreate.valid
    decide
  · unfold Schedule.valid
    decide

end Fastbook

